import Mathlib

/-! Shallow embedding of the `ctt` data-loading pipeline
(`src/ctt/data_loading/loader.py`, the authoritative `ContactDataset`):
the record-to-tensor encoder (`ContactDataset.get`), the per-item
resampling policy (`ContactDataset.__getitem__`) and the batch collator
(`ContactDataset.collate_fn`).  numpy float arrays are modelled as lists
of rationals, unsigned-integer casts as explicit `% 2^w`, and the two
classes of runtime failure of `get` as the constructors of `GetError`. -/

namespace ContactDataset

/-- Configuration flags of the `ContactDataset` constructor (loader.py
lines 75-121).  `bit_encoded_age` mirrors the private `_bit_encoded_age`
attribute, which the constructor always sets to `False`. -/
structure Config where
  relative_days : Bool
  clip_history_days : Bool
  bit_encoded_messages : Bool
  bit_encoded_age : Bool
deriving DecidableEq

/-- Constructor defaults: `relative_days=True`, `clip_history_days=False`,
`bit_encoded_messages=True`, `_bit_encoded_age=False`. -/
def defaultConfig : Config := ⟨true, false, true, false⟩

/-- One row of the `candidate_encounters` matrix of a raw record, of shape
(M, 4) (loader.py lines 273 and 283-294): partner id, transmitted risk
message, encounter duration, day of encounter.  The row width 4, asserted
at line 283, is captured by the type. -/
structure Encounter where
  partnerId : Int
  message : Int
  duration : Int
  day : Int
deriving DecidableEq

/-- A raw per-human-day record, flattening the "observed" / "unobserved"
sections of the pickle payload.  Keys that the source reads with a
defaulting `.get` (age, sex, preexisting conditions) or an `in` test
(exposure_encounter) are `Option`s. -/
structure HumanDayInfo where
  current_day : Int
  candidate_encounters : List Encounter
  reported_symptoms : List (List ℚ)
  test_results : List ℚ
  age : Option Int
  sex : Option Int
  preexisting_conditions : Option (List ℚ)
  infectiousness : List ℚ
  is_recovered : Bool
  is_exposed : Bool
  exposure_encounter : Option (List ℚ)
deriving DecidableEq

/-- The encoded sample returned by `ContactDataset.get` (loader.py lines
362-377).  Two-dimensional float tensors are lists of rows of rationals;
the (M, 1)-shaped encounter columns are lists of singleton rows. -/
structure Sample where
  human_idx : Int
  day_idx : Int
  health_history : List (List ℚ)
  health_profile : List ℚ
  infectiousness_history : List ℚ
  history_days : List Int
  valid_history_mask : List ℚ
  current_compartment : List ℚ
  encounter_health : List (List ℚ)
  encounter_message : List (List ℚ)
  encounter_partner_id : List (List ℚ)
  encounter_day : List (List ℚ)
  encounter_duration : List (List ℚ)
  encounter_is_contagion : List (List ℚ)
deriving DecidableEq

/-- Failure modes of `ContactDataset.get`: `invalidSetSize` models the
named `InvalidSetSize` exception (loader.py lines 17-18, 277 and 282),
the only failure the caller is expected to handle; `contractViolation`
models the unnamed fail-fast conditions a malformed record triggers (the
`assert` statements and numpy shape errors). -/
inductive GetError
  | invalidSetSize
  | contractViolation
deriving DecidableEq

/-- Boolean success test for an `Except` result. -/
def isOkE {ε α : Type _} : Except ε α → Bool
  | .ok _ => true
  | .error _ => false

/-- The eight bits of a byte, most significant bit first: the effect of
`np.unpackbits` (default big bit order) on a single `uint8`. -/
def bits8N (b : ℕ) : List ℕ :=
  [b >>> 7 &&& 1, b >>> 6 &&& 1, b >>> 5 &&& 1, b >>> 4 &&& 1,
   b >>> 3 &&& 1, b >>> 2 &&& 1, b >>> 1 &&& 1, b &&& 1]

/-- Reads a bit vector as a most-significant-bit-first binary numeral. -/
def packMSBN (bits : List ℕ) : ℕ :=
  bits.foldl (fun a b => 2 * a + b) 0

/-- Partner-id encoding of one encounter (loader.py lines 296-303):
`np.unpackbits(ids.astype("uint16").view("uint8"))` reshaped to rows of
16.  The `astype` cast wraps modulo 2^16; `view("uint8")` reinterprets
each uint16 as its two bytes in the platform's native little-endian
order; `np.unpackbits` then emits each byte most-significant-bit first.
The row for id `v` is therefore the 8 bits of `v % 256` followed by the
8 bits of `v / 256`. -/
def partnerIdBitsN (pid : Int) : List ℕ :=
  bits8N ((pid % 65536).toNat % 256) ++ bits8N ((pid % 65536).toNat / 256)

/-- Encounter staleness test (loader.py line 278):
`encounter_info[:, 3] > day_idx - 14`, where `day_idx` has already been
replaced by the record's `current_day` (line 267). -/
def validEncounter (day_idx : Int) (e : Encounter) : Bool :=
  day_idx - 14 < e.day

/-- The encounter rows retained by the staleness filter (loader.py
line 279). -/
def filteredEncounters (r : HumanDayInfo) : List Encounter :=
  r.candidate_encounters.filter (validEncounter r.current_day)

/-- Risk-message encoding `_fetch_encounter_message` (loader.py lines
423-436): with `bit_encoded_messages` each message is cast to `uint8`
(wrapping modulo 256) and unpacked to its 8 bits; otherwise it is
min-max normalized from the assumed risk range
[`ASSUMED_MIN_RISK` = 0, `ASSUMED_MAX_RISK` = 15] (lines 69-70). -/
def fetch_encounter_message (cfg : Config) (ms : List Int) : List (List ℚ) :=
  if cfg.bit_encoded_messages then
    ms.map (fun m => (bits8N ((m % 256).toNat)).map (fun b => (b : ℚ)))
  else
    ms.map (fun m => [((m : ℚ) - 0) / (15 - 0)])

/-- Age encoding `_fetch_age` (loader.py lines 382-397).  An absent age
defaults to `DEFAULT_AGE = 0` (line 62).  In the continuous branch an age
equal to -1 maps to the sentinel `[-1]`, any other value to
`(age - ASSUMED_MIN_AGE) / (ASSUMED_MAX_AGE - ASSUMED_MIN_AGE)` with the
assumed range [1, 100] (lines 63-64). -/
def fetch_age (cfg : Config) (ageOpt : Option Int) : List ℚ :=
  let age := ageOpt.getD 0
  if cfg.bit_encoded_age then
    if age = -1 then List.replicate 8 (-1 : ℚ)
    else (bits8N ((age % 256).toNat)).map (fun b => (b : ℚ))
  else
    if age = -1 then [(-1 : ℚ)]
    else [((age : ℚ) - 1) / (100 - 1)]

/-- The trailing 14-day time stamps before clipping or relative shift
(loader.py line 322): `np.arange(day_idx - 13, day_idx + 1)[::-1]`, the
descending sequence from `day_idx` down to `day_idx - 13`. -/
def historyDaysPre (d : Int) : List Int :=
  (List.range 14).map (fun i => d - (i : Int))

/-- The `history_days` field actually stored in the sample: the pre-shift
sequence, clipped at 0 when `clip_history_days` is set (loader.py lines
355-356) and then shifted by `-day_idx` when `relative_days` is set
(lines 358-359), in that order. -/
def historyDaysOut (cfg : Config) (d : Int) : List Int :=
  let hd := historyDaysPre d
  let hd := if cfg.clip_history_days then hd.map (fun x => max x 0) else hd
  if cfg.relative_days then hd.map (fun x => x - d) else hd

/-- Concatenation of reported symptoms with the test-result column
(loader.py lines 314-320); row counts of the two raw fields must agree
for `np.concatenate` to succeed, which `get` checks. -/
def healthHistory (r : HumanDayInfo) : List (List ℚ) :=
  (r.reported_symptoms.zip r.test_results).map (fun p => p.1 ++ [p.2])

/-- Infectiousness trajectory right-zero-padded to 14 entries, the
successful path of `_fetch_infectiousness_history` (loader.py lines
411-421). -/
def paddedInfectiousness (r : HumanDayInfo) : List ℚ :=
  if r.infectiousness.length < 14 then
    r.infectiousness ++ List.replicate (14 - r.infectiousness.length) 0
  else r.infectiousness

/-- Index of the first element equal to `d`, if any: the behaviour of
`np.argmax(encounter_day == history_days, axis=0)` (loader.py lines
325-327) on the column where some entry matches. -/
def firstMatch : List Int → Int → Option ℕ
  | [], _ => none
  | a :: t, d => if a = d then some 0 else (firstMatch t d).map (· + 1)

/-- History row selected for an encounter day (loader.py lines 325-327):
`np.argmax` of a boolean vector returns the index of the first `True`,
and 0 when no entry is `True`. -/
def matchIdx (hd : List Int) (d : Int) : ℕ :=
  (firstMatch hd d).getD 0

/-- Success condition of `_fetch_encounter_is_contagion` (loader.py lines
399-409): when `exposure_encounter` is present, indexing it with the
boolean `valid_encounter_mask` requires its length to equal the number of
candidate encounters. -/
def contagionOk (r : HumanDayInfo) : Bool :=
  match r.exposure_encounter with
  | none => true
  | some xs => xs.length = r.candidate_encounters.length

/-- Value of `_fetch_encounter_is_contagion` on the success path: the
ground-truth exposure flags restricted to the retained encounters, or
zeros for every retained encounter when the ground truth is absent. -/
def encounterIsContagion (r : HumanDayInfo) : List ℚ :=
  match r.exposure_encounter with
  | none => List.replicate (filteredEncounters r).length 0
  | some xs =>
      ((r.candidate_encounters.zip xs).filter
        (fun p => validEncounter r.current_day p.1)).map (fun p => p.2)

/-- Compartment label computed by the if/elif chain of loader.py lines
330-338: recovered, else currently infected (first entry of the padded
infectiousness history positive), else exposed, else susceptible. -/
def compartmentLabel (r : HumanDayInfo) : String :=
  if r.is_recovered then "R"
  else if 0 < (paddedInfectiousness r).headD 0 then "I"
  else if r.is_exposed then "E"
  else "S"

/-- One-hot S/E/I/R vector (loader.py lines 339-346). -/
def currentCompartment (r : HumanDayInfo) : List ℚ :=
  [if compartmentLabel r = "S" then 1 else 0,
   if compartmentLabel r = "E" then 1 else 0,
   if compartmentLabel r = "I" then 1 else 0,
   if compartmentLabel r = "R" then 1 else 0]

/-- Guard for the health-row lookup of loader.py line 328: each selected
row index must be in bounds of `health_history`. -/
def matchIdxsOk (r : HumanDayInfo) : Bool :=
  (filteredEncounters r).all
    (fun e => matchIdx (historyDaysPre r.current_day) e.day < (healthHistory r).length)

/-- The sample assembled on the success path of `ContactDataset.get`
(loader.py lines 284-377).  The caller-supplied `day_idx` does not occur:
line 267 replaces it by the record's `current_day` before any use.  A
`human_idx` of `None` becomes -1 (lines 268-269). -/
def buildSample (cfg : Config) (human_idx : Option Int) (r : HumanDayInfo) : Sample :=
  let d := r.current_day
  let filtered := filteredEncounters r
  let hdPre := historyDaysPre d
  { human_idx := human_idx.getD (-1)
    day_idx := d
    health_history := healthHistory r
    health_profile :=
      fetch_age cfg r.age ++ [((r.sex.getD 0 : Int) : ℚ)] ++
        r.preexisting_conditions.getD (List.replicate 10 0)
    infectiousness_history := paddedInfectiousness r
    history_days := historyDaysOut cfg d
    valid_history_mask := hdPre.map (fun x => if 0 ≤ x then (1 : ℚ) else 0)
    current_compartment := currentCompartment r
    encounter_health :=
      filtered.map (fun e => (healthHistory r).getD (matchIdx hdPre e.day) [])
    encounter_message := fetch_encounter_message cfg (filtered.map (fun e => e.message))
    encounter_partner_id :=
      filtered.map (fun e => (partnerIdBitsN e.partnerId).map (fun b => (b : ℚ)))
    encounter_day :=
      filtered.map (fun e => [((if cfg.relative_days then e.day - d else e.day : Int) : ℚ)])
    encounter_duration := filtered.map (fun e => [(e.duration : ℚ)])
    encounter_is_contagion := (encounterIsContagion r).map (fun c => [c]) }

/-- Embedding of `ContactDataset.get` (loader.py lines 214-380) given the
raw record.  The checks appear in source order: the two emptiness tests
of the encounter set raise `InvalidSetSize` (lines 276-282); the
remaining guards are the fail-fast contract checks that the later
computations perform (exposure-mask length, `np.concatenate` row
agreement, the 14-entry infectiousness assertion, health-row bounds).
On success the returned sample is `buildSample`; the optional
user-supplied transform (line 378) is the identity here, matching the
constructor default `transforms=None`. -/
def get (cfg : Config) (human_idx : Option Int) (day_idx : Int) (r : HumanDayInfo) :
    Except GetError Sample :=
  if r.candidate_encounters = [] then .error .invalidSetSize
  else if filteredEncounters r = [] then .error .invalidSetSize
  else if ¬ contagionOk r then .error .contractViolation
  else if r.reported_symptoms.length ≠ r.test_results.length then .error .contractViolation
  else if 14 < r.infectiousness.length then .error .contractViolation
  else if ¬ matchIdxsOk r then .error .contractViolation
  else .ok (buildSample cfg human_idx r)

/-- State of the retry loop of `ContactDataset.__getitem__` (loader.py
lines 438-455): the human index, the day index about to be tried, and
`num_fetch_attempts`. -/
structure RetryState where
  human : ℕ
  day : ℕ
  attempts : ℕ
deriving DecidableEq

/-- The `except InvalidSetSize` handler of `__getitem__` (loader.py lines
445-455), exactly as written: when more than 5 attempts have been made
the human index advances modulo `num_humans`, the day resets to the
originally requested `_requested_day_idx = d0` and the counter resets to
0; then, unconditionally, the day advances modulo `num_days` and the
counter increments. -/
def handleInvalid (H D d0 : ℕ) (s : RetryState) : RetryState :=
  let s1 := if 5 < s.attempts then RetryState.mk ((s.human + 1) % H) d0 0 else s
  RetryState.mk s1.human ((s1.day + 1) % D) (s1.attempts + 1)

/-- The state whose (human, day) pair `__getitem__` tries on its `k`-th
call to `get`, assuming every earlier call raised `InvalidSetSize`.  The
start state comes from `np.unravel_index(item, (num_humans, num_days))`
(loader.py line 439), i.e. row-major: human `item / D`, day `item % D`. -/
def triedState (H D item : ℕ) : ℕ → RetryState
  | 0 => RetryState.mk (item / D) (item % D) 0
  | k + 1 => handleInvalid H D (item % D) (triedState H D item k)

/-- Fuel-bounded embedding of the `while True` loop of `__getitem__`:
returns the first tried (human, day) pair at which `ok` holds, where `ok`
stands for `get` succeeding at that index. -/
def getitemFirstOk (ok : ℕ → ℕ → Bool) (H D item : ℕ) : ℕ → Option (ℕ × ℕ)
  | 0 => none
  | fuel + 1 =>
      match (List.range (fuel + 1)).find? (fun k =>
        ok (triedState H D item k).human (triedState H D item k).day) with
      | some k => some ((triedState H D item k).human, (triedState H D item k).day)
      | none => none

/-- The collated batch returned by `ContactDataset.collate_fn` (loader.py
lines 457-482): the mask, the directly stacked fixed-size fields, and the
padded set-valued fields. -/
structure CollatedBatch where
  mask : List (List ℚ)
  human_idx : List Int
  day_idx : List Int
  health_history : List (List (List ℚ))
  health_profile : List (List ℚ)
  infectiousness_history : List (List ℚ)
  history_days : List (List Int)
  valid_history_mask : List (List ℚ)
  current_compartment : List (List ℚ)
  encounter_health : List (List (List ℚ))
  encounter_message : List (List (List ℚ))
  encounter_partner_id : List (List (List ℚ))
  encounter_day : List (List (List ℚ))
  encounter_duration : List (List (List ℚ))
  encounter_is_contagion : List (List (List ℚ))
deriving DecidableEq

/-- Maximum leading length over a batch of one set-valued field, the
`max([x[...].shape[0] for x in batch])` of loader.py line 466 (0 on an
empty batch, where Python's `max` would instead raise). -/
def maxLen {α : Type _} (xss : List (List α)) : ℕ :=
  (xss.map List.length).foldr Nat.max 0

/-- Trailing row width `pad_sequence` pads with: the row width of the
first sequence of the field (all sequences of one field share it). -/
def padWidth (xss : List (List (List ℚ))) : ℕ :=
  ((xss.headD []).headD []).length

/-- Embedding of `torch.nn.utils.rnn.pad_sequence(..., batch_first=True)`
(loader.py lines 474-477): every sequence of the field is right-padded
with zero rows to the maximum length occurring in that field. -/
def padSeq (xss : List (List (List ℚ))) : List (List (List ℚ)) :=
  xss.map (fun xs => xs ++ List.replicate (maxLen xss - xs.length) (List.replicate (padWidth xss) 0))

/-- Embedding of `ContactDataset.collate_fn` (loader.py lines 457-482).
`SET_VALUED_FIELDS[0]` is `encounter_health` (line 22), so both the mask
and `max_set_len` are computed from the `encounter_health` lengths; the
mask entry (i, j) is `j < set_lens[i]` (lines 465-472); fixed-size fields
are stacked directly (lines 459-463); set-valued fields go through
`pad_sequence` (lines 473-477). -/
def collate_fn (batch : List Sample) : CollatedBatch :=
  let maxM := maxLen (batch.map (fun s => s.encounter_health))
  { mask := batch.map (fun s =>
      (List.range maxM).map (fun j => if j < s.encounter_health.length then (1 : ℚ) else 0))
    human_idx := batch.map (fun s => s.human_idx)
    day_idx := batch.map (fun s => s.day_idx)
    health_history := batch.map (fun s => s.health_history)
    health_profile := batch.map (fun s => s.health_profile)
    infectiousness_history := batch.map (fun s => s.infectiousness_history)
    history_days := batch.map (fun s => s.history_days)
    valid_history_mask := batch.map (fun s => s.valid_history_mask)
    current_compartment := batch.map (fun s => s.current_compartment)
    encounter_health := padSeq (batch.map (fun s => s.encounter_health))
    encounter_message := padSeq (batch.map (fun s => s.encounter_message))
    encounter_partner_id := padSeq (batch.map (fun s => s.encounter_partner_id))
    encounter_day := padSeq (batch.map (fun s => s.encounter_day))
    encounter_duration := padSeq (batch.map (fun s => s.encounter_duration))
    encounter_is_contagion := padSeq (batch.map (fun s => s.encounter_is_contagion)) }

/-- Sample with no encounters and empty fixed-size fields, used as a
`getD` fallback when indexing a batch. -/
def emptySample : Sample :=
  ⟨-1, 0, [], [], [], [], [], [], [], [], [], [], [], []⟩

/-- Decidable equality on `Except` results, component-wise. -/
instance {ε α : Type _} [DecidableEq ε] [DecidableEq α] : DecidableEq (Except ε α) := fun x y =>
  match x, y with
  | .ok a, .ok b =>
      if h : a = b then isTrue (by rw [h]) else isFalse (fun he => h (Except.ok.inj he))
  | .error a, .error b =>
      if h : a = b then isTrue (by rw [h]) else isFalse (fun he => h (Except.error.inj he))
  | .ok _, .error _ => isFalse (fun he => Except.noConfusion he)
  | .error _, .ok _ => isFalse (fun he => Except.noConfusion he)

/-- An all-zero 14-day symptom report of width 28, matching the raw
record layout the encoder expects. -/
def zeroSymptoms : List (List ℚ) := List.replicate 14 (List.replicate 28 0)

/-- A well-formed concrete raw record: current day 20, one fresh
encounter (day 20) and one stale encounter (day 1, outside the trailing
14-day window), no observed age or sex, a record that is flagged
recovered while its current infectiousness 1 is positive. -/
def rec0 : HumanDayInfo :=
  { current_day := 20
    candidate_encounters := [⟨3, 7, 10, 20⟩, ⟨1, 2, 10, 1⟩]
    reported_symptoms := zeroSymptoms
    test_results := List.replicate 14 0
    age := none
    sex := none
    preexisting_conditions := none
    infectiousness := [1]
    is_recovered := true
    is_exposed := false
    exposure_encounter := none }

/-- Configuration with both `relative_days` and `clip_history_days`
enabled. -/
def cfgClip : Config := ⟨true, true, true, false⟩

/-- Configuration with continuous (non-bit-encoded) messages, otherwise
the constructor defaults. -/
def cfgCont : Config := ⟨true, false, false, false⟩

/-- A well-formed raw record whose `current_day` is -1; the record store
explicitly supports negative day indices (loader.py lines 148-155 parse
file names such as `-1-100.pkl`). -/
def recNeg : HumanDayInfo :=
  { current_day := -1
    candidate_encounters := [⟨0, 0, 10, -1⟩]
    reported_symptoms := zeroSymptoms
    test_results := List.replicate 14 0
    age := none
    sex := none
    preexisting_conditions := none
    infectiousness := []
    is_recovered := false
    is_exposed := false
    exposure_encounter := none }

/-- A record with no usable encounter: its only candidate encounter is
stale relative to `current_day` 20. -/
def recStale : HumanDayInfo :=
  { rec0 with candidate_encounters := [⟨1, 2, 10, 1⟩] }

/-- A well-formed record whose single fresh encounter has partner id 1. -/
def recPid1 : HumanDayInfo :=
  { rec0 with candidate_encounters := [⟨1, 7, 10, 20⟩] }

/-- A minimal sample with `m` encounters whose set-valued fields all have
leading length `m`, as the encoder guarantees. -/
def mkSetSample (m : ℕ) : Sample :=
  { emptySample with
    encounter_health := List.replicate m (List.replicate 29 0)
    encounter_message := List.replicate m (List.replicate 8 0)
    encounter_partner_id := List.replicate m (List.replicate 16 0)
    encounter_day := List.replicate m [0]
    encounter_duration := List.replicate m [0]
    encounter_is_contagion := List.replicate m [0] }

/-- A batch of three samples with encounter counts 2, 5 and 3. -/
def batch3 : List Sample := [mkSetSample 2, mkSetSample 5, mkSetSample 3]

/-- Whenever `get` succeeds, its value is `buildSample`. -/
lemma get_eq_ok (cfg : Config) (hi : Option Int) (di : Int) (r : HumanDayInfo)
    (h : isOkE (get cfg hi di r) = true) :
    get cfg hi di r = .ok (buildSample cfg hi r) := by
  unfold get at h ⊢
  split_ifs at h ⊢ <;> simp_all [isOkE]

/-- The pre-shift history time stamps, written out. -/
lemma historyDaysPre_eq (d : Int) :
    historyDaysPre d =
      [d, d - 1, d - 2, d - 3, d - 4, d - 5, d - 6, d - 7, d - 8, d - 9,
       d - 10, d - 11, d - 12, d - 13] := by
  norm_num [historyDaysPre, List.range_succ]

/-- C1: encoding a raw record raises the degenerate-sample error
`InvalidSetSize` exactly when the record's `candidate_encounters` matrix
is empty or no encounter survives the trailing 14-day staleness filter
`encounter_day > day_idx - 14`; every other failure of `get` is an
unnamed fail-fast contract violation, and on the degenerate path no
sample (hence no fabricated encounter row) is produced. -/
theorem get_invalidSetSize_iff (cfg : Config) (hi : Option Int) (di : Int) (r : HumanDayInfo) :
    get cfg hi di r = .error .invalidSetSize ↔
      r.candidate_encounters = [] ∨ filteredEncounters r = [] := by
  unfold get
  split_ifs <;> simp_all

/-- First stored history time stamp when no relative shift is applied. -/
lemma historyDaysOut_head (cfg : Config) (d : Int) (hrel : cfg.relative_days = false) :
    (historyDaysOut cfg d).headD 0 = if cfg.clip_history_days then max d 0 else d := by
  simp only [historyDaysOut, hrel, Bool.false_eq_true, if_false]
  split_ifs <;> simp [historyDaysPre_eq]

/-- C10: the caller-supplied `day_idx` argument of `get` is discarded in
favour of the record's own `current_day`, so the result is independent of
the requested day; on success the sample's `day_idx` field equals
`current_day`, the retained encounters are those passing the 14-day
filter taken at `current_day`, and (shown here with `relative_days`
off, where no shift hides it) the first history time stamp is derived
from `current_day`. -/
theorem get_ignores_day_idx (cfg : Config) (hi : Option Int) (d1 d2 : Int) (r : HumanDayInfo) :
    get cfg hi d1 r = get cfg hi d2 r ∧
    (isOkE (get cfg hi d1 r) = true →
      (get cfg hi d1 r).map (fun s => s.day_idx) = .ok r.current_day ∧
      (get cfg hi d1 r).map (fun s => s.encounter_day.length) =
        .ok (filteredEncounters r).length ∧
      (cfg.relative_days = false →
        (get cfg hi d1 r).map (fun s => s.history_days.headD 0) =
          .ok (if cfg.clip_history_days then max r.current_day 0 else r.current_day))) := by
  refine ⟨rfl, fun h => ?_⟩
  rw [get_eq_ok cfg hi d1 r h]
  refine ⟨rfl, ?_, fun hrel => ?_⟩
  · simp [Except.map, buildSample]
  · simp only [Except.map, buildSample]
    rw [historyDaysOut_head cfg r.current_day hrel]

/-- Witness for C10 at the concrete record `rec0` (current day 20) with
two different requested days. -/
theorem get_ignores_day_idx_witness :
    get defaultConfig none 3 rec0 = get defaultConfig none 17 rec0 ∧
    (get defaultConfig none 3 rec0).map (fun s => s.day_idx) = .ok 20 := by
  have h := get_ignores_day_idx defaultConfig none 3 17 rec0
  exact ⟨h.1, ((h.2 (by decide)).1).trans (by decide)⟩

/-- C2: the retry walk of `__getitem__` is a deterministic function of
the requested index.  The closed form shows the whole schedule: writing
`j = (k - 1) / 6` and `offs = k - 6 * j`, the `k`-th call to `get` tries
human `(item / D + j) % num_humans` on day `(item % D + offs) % num_days`
with attempt counter `offs`; so each human is probed on consecutive days
starting from the originally requested day (the first human on days
d0, d0+1, ..., d0+6; after a human advance the day is reset to d0 and the
counter to 0, and the shared retry step then moves to day d0+1 with
counter 1).  The last two conjuncts state the failure handler itself:
below 6 recorded attempts the human is kept and the day advances modulo
`num_days`; past 5 attempts the human advances modulo `num_humans`, the
day restarts from the requested day and the counter restarts. -/
theorem getitem_retry_schedule (H D item : ℕ) (hH : 0 < H) (hD : 0 < D)
    (hitem : item < H * D) (k : ℕ) :
    triedState H D item k =
      RetryState.mk ((item / D + (k - 1) / 6) % H)
        ((item % D + (k - 6 * ((k - 1) / 6))) % D) (k - 6 * ((k - 1) / 6)) ∧
    (∀ s : RetryState, s.attempts ≤ 5 →
      handleInvalid H D (item % D) s =
        RetryState.mk s.human ((s.day + 1) % D) (s.attempts + 1)) ∧
    (∀ s : RetryState, 5 < s.attempts →
      handleInvalid H D (item % D) s =
        RetryState.mk ((s.human + 1) % H) ((item % D + 1) % D) 1) := by
  have hstep : ∀ a b c, c ≤ 5 →
      handleInvalid H D (item % D) (RetryState.mk a b c) =
        RetryState.mk a ((b + 1) % D) (c + 1) := by
    intro a b c hc
    simp [handleInvalid, show ¬ 5 < c by omega]
  have hadv : ∀ a b c, 5 < c →
      handleInvalid H D (item % D) (RetryState.mk a b c) =
        RetryState.mk ((a + 1) % H) ((item % D + 1) % D) 1 := by
    intro a b c hc
    simp [handleInvalid, hc]
  refine ⟨?_, fun s hs => ?_, fun s hs => ?_⟩
  · induction k with
    | zero =>
        have h1 : item / D < H := Nat.div_lt_of_lt_mul (by rwa [Nat.mul_comm] at hitem)
        have h2 : item % D < D := Nat.mod_lt item hD
        simp only [triedState, RetryState.mk.injEq]
        refine ⟨by simp [Nat.mod_eq_of_lt h1], by simp [Nat.mod_eq_of_lt h2], by trivial⟩
    | succ n ih =>
        rw [show triedState H D item (n + 1) =
              handleInvalid H D (item % D) (triedState H D item n) from rfl, ih]
        by_cases hC : 5 < n - 6 * ((n - 1) / 6)
        · rw [hadv _ _ _ hC]
          simp only [RetryState.mk.injEq]
          refine ⟨?_, ?_, by omega⟩
          · rw [Nat.mod_add_mod]
            congr 1
            omega
          · congr 1
            omega
        · rw [hstep _ _ _ (by omega)]
          simp only [RetryState.mk.injEq]
          refine ⟨?_, ?_, by omega⟩
          · congr 1
            omega
          · rw [Nat.mod_add_mod]
            congr 1
            omega
  · obtain ⟨a, b, c⟩ := s
    exact hstep a b c hs
  · obtain ⟨a, b, c⟩ := s
    exact hadv a b c hs

/-- Witness for C2 on a 3-human, 4-day grid starting from flat index 5
(human 1, day 1): the 13th retry has wrapped to human 0 and tries day 2
with one recorded attempt. -/
theorem getitem_retry_schedule_witness :
    (0 < 3 ∧ 0 < 4 ∧ 5 < 3 * 4) ∧ triedState 3 4 5 13 = RetryState.mk 0 2 1 := by
  have h := getitem_retry_schedule 3 4 5 (by decide) (by decide) (by decide) 13
  exact ⟨⟨by decide, by decide, by decide⟩, h.1.trans (by decide)⟩

/-- Unpacking one byte and repacking it most-significant-bit first is the
identity below 256. -/
lemma packMSBN_bits8N (b : ℕ) (hb : b < 256) : packMSBN (bits8N b) = b := by
  simp [bits8N, packMSBN, Nat.shiftRight_eq_div_pow, Nat.and_one_is_mod]
  omega

/-- Every produced bit is 0 or 1. -/
lemma bits8N_lt_two (x : ℕ) : ∀ b ∈ bits8N x, b < 2 := by
  simp [bits8N, Nat.and_one_is_mod]
  omega

/-- C4 counterexample: the encoder's 16-bit partner-id vector is not in
big-endian bit order.  For partner id 1 the produced vector has its 1 in
position 7 (the low byte comes first, because `view("uint8")` exposes the
platform's little-endian byte order), so reading the vector back as a
most-significant-bit-first 16-bit number gives 256, not 1. -/
theorem partner_id_bigendian_counterexample :
    (get defaultConfig none 0 recPid1).map (fun s => s.encounter_partner_id) =
      .ok [[0, 0, 0, 0, 0, 0, 0, 1, 0, 0, 0, 0, 0, 0, 0, 0]] ∧
    packMSBN (partnerIdBitsN 1) = 256 ∧ (256 : ℕ) ≠ 1 := by
  exact ⟨by decide, by decide, by decide⟩

/-- C4 amended: the encoder produces, for every partner id in
[0, 65535], a 16-entry 0/1 vector consisting of the two bytes of the id
in little-endian byte order, each byte most-significant-bit first; the
encoding is lossless, since packing the second 8 bits as the high byte
and the first 8 bits as the low byte reproduces the id. -/
theorem partner_id_roundtrip (pid : ℕ) (hpid : pid ≤ 65535) :
    (partnerIdBitsN (pid : Int)).length = 16 ∧
    (∀ b ∈ partnerIdBitsN (pid : Int), b < 2) ∧
    packMSBN ((partnerIdBitsN (pid : Int)).drop 8) * 256 +
      packMSBN ((partnerIdBitsN (pid : Int)).take 8) = pid := by
  have hu : ((pid : Int) % 65536).toNat = pid := by omega
  unfold partnerIdBitsN
  rw [hu]
  have h8 : (bits8N (pid % 256)).length = 8 := rfl
  refine ⟨by simp [bits8N], ?_, ?_⟩
  · intro b hb
    rcases List.mem_append.1 hb with h | h
    · exact bits8N_lt_two _ b h
    · exact bits8N_lt_two _ b h
  · rw [List.take_left' h8, List.drop_left' h8,
      packMSBN_bits8N _ (by omega), packMSBN_bits8N _ (by omega)]
    omega

/-- Witness for the amended C4 at partner id 1000. -/
theorem partner_id_roundtrip_witness :
    (1000 : ℕ) ≤ 65535 ∧
    packMSBN ((partnerIdBitsN ((1000 : ℕ) : Int)).drop 8) * 256 +
      packMSBN ((partnerIdBitsN ((1000 : ℕ) : Int)).take 8) = 1000 := by
  have h := partner_id_roundtrip 1000 (by decide)
  exact ⟨by decide, h.2.2⟩

/-- C8: under bit-encoded mode the 8-bit risk-message vector of
`_fetch_encounter_message` round-trips for every message in [0, 255]
(packing the 8 produced bits most-significant-bit first reproduces the
message); under continuous mode the message is normalized by
`(m - 0) / (15 - 0)`, so risk 0 encodes to 0 and risk 15 to 1. -/
theorem risk_message_roundtrip (cfg : Config) :
    (cfg.bit_encoded_messages = true →
      ∀ m : ℕ, m ≤ 255 →
        fetch_encounter_message cfg [(m : Int)] =
          [(bits8N m).map (fun b => (b : ℚ))] ∧
        packMSBN (bits8N m) = m) ∧
    (cfg.bit_encoded_messages = false →
      fetch_encounter_message cfg [0] = [[0]] ∧
      fetch_encounter_message cfg [15] = [[1]]) := by
  constructor
  · intro hb m hm
    have hcast : ((m : Int) % 256).toNat = m := by omega
    refine ⟨?_, packMSBN_bits8N m (by omega)⟩
    simp [fetch_encounter_message, hb, hcast]
  · intro hb
    constructor <;> simp [fetch_encounter_message, hb]

/-- Witness for C8: message 200 in bit mode, message 15 in continuous
mode. -/
theorem risk_message_roundtrip_witness :
    (defaultConfig.bit_encoded_messages = true ∧ (200 : ℕ) ≤ 255 ∧
      packMSBN (bits8N 200) = 200) ∧
    (cfgCont.bit_encoded_messages = false ∧
      fetch_encounter_message cfgCont [15] = [[1]]) := by
  have h1 := risk_message_roundtrip defaultConfig
  have h2 := risk_message_roundtrip cfgCont
  exact ⟨⟨by decide, by decide, (h1.1 (by decide) 200 (by decide)).2⟩,
    ⟨by decide, (h2.2 (by decide)).2⟩⟩

/-- C5: evaluation of the age encoder at the disputed inputs.  An age of
-1 yields the sentinel `[-1]` and a present age `a` yields
`[(a - 1) / 99]`, as claimed; but an absent age falls back to
`DEFAULT_AGE = 0` (not -1), so it is normalized to `[-1/99]` - a value
that is neither the -1 sentinel nor inside [0, 1], contradicting the
function's own documentation ("age is a float taking values in
Union([0, 1], {-1})", loader.py lines 234-238).  The last conjunct shows
the bad value reaching the `health_profile` age channel of a full
encoded sample for a record with no observed age. -/
theorem age_absent_not_sentinel :
    fetch_age defaultConfig none = [-(1 / 99 : ℚ)] ∧ ((-(1 / 99) : ℚ) = -1 → False) ∧
    fetch_age defaultConfig (some (-1)) = [-1] ∧
    fetch_age defaultConfig (some 50) = [49 / 99] ∧
    (get defaultConfig none 0 rec0).map (fun s => s.health_profile.headD 9) =
      .ok (-(1 / 99)) := by
  have hget : get defaultConfig none 0 rec0 = .ok (buildSample defaultConfig none rec0) :=
    get_eq_ok _ _ _ _ (by decide)
  refine ⟨by norm_num [fetch_age, defaultConfig], by norm_num,
    by norm_num [fetch_age, defaultConfig], by norm_num [fetch_age, defaultConfig], ?_⟩
  rw [hget]
  simp only [Except.map, buildSample]
  norm_num [fetch_age, defaultConfig, rec0]

/-- C6: the one-hot S/E/I/R compartment of every successfully encoded
record follows the first-match-wins priority recovered, then currently
infected (first entry of the 14-entry infectiousness history positive),
then exposed, then susceptible; in particular a record flagged both
recovered and currently infected gets the recovered one-hot
[0, 0, 0, 1]. -/
theorem compartment_priority (cfg : Config) (hi : Option Int) (di : Int) (r : HumanDayInfo)
    (h : isOkE (get cfg hi di r) = true) :
    (get cfg hi di r).map (fun s => s.current_compartment) =
      .ok (if r.is_recovered then [0, 0, 0, 1]
        else if 0 < (paddedInfectiousness r).headD 0 then [0, 0, 1, 0]
        else if r.is_exposed then [0, 1, 0, 0]
        else [1, 0, 0, 0]) := by
  rw [get_eq_ok cfg hi di r h]
  simp only [Except.map, buildSample]
  congr 1
  unfold currentCompartment compartmentLabel
  split_ifs <;> first | rfl | decide | simp_all

/-- Witness for C6: `rec0` is flagged recovered while its current
infectiousness 1 is positive, and its compartment is the recovered
one-hot. -/
theorem compartment_priority_witness :
    rec0.is_recovered = true ∧ 0 < (paddedInfectiousness rec0).headD 0 ∧
    (get defaultConfig none 0 rec0).map (fun s => s.current_compartment) =
      .ok [0, 0, 0, 1] := by
  have h := compartment_priority defaultConfig none 0 rec0 (by decide)
  exact ⟨by decide, by decide, h.trans (by decide)⟩

/-- Ones in the validity mask correspond exactly to the non-negative
pre-shift history days. -/
lemma count_one_indicator (l : List Int) :
    ((l.map (fun x => if 0 ≤ x then (1 : ℚ) else 0)).count 1) =
      (l.filter (fun x => 0 ≤ x)).length := by
  induction l with
  | nil => simp
  | cons a t ih =>
      by_cases ha : 0 ≤ a <;>
        simp [ha, ih, List.count_cons, show (0 : ℚ) ≠ 1 by norm_num]

/-- With the relative shift on, the first stored history time stamp is 0
provided clipping is off or the record's day is non-negative. -/
lemma historyDaysOut_head_relative (cfg : Config) (d : Int)
    (hrel : cfg.relative_days = true) (h : cfg.clip_history_days = false ∨ 0 ≤ d) :
    (historyDaysOut cfg d).headD 1 = 0 := by
  unfold historyDaysOut
  rcases h with h | h
  · simp [h, hrel, historyDaysPre_eq]
  · by_cases hc : cfg.clip_history_days
    · simp [hc, hrel, historyDaysPre_eq]
      omega
    · simp [hc, hrel, historyDaysPre_eq]

/-- C7 amended: every successfully encoded sample of a well-formed raw
record (14 symptom rows and 14 test results) has exactly 14 rows of
`health_history`; the pre-shift `history_days` is the descending
sequence from `day_idx` down to `day_idx - 13`; `valid_history_mask` has
exactly as many ones as the pre-shift sequence has non-negative entries;
and, when `relative_days` is on, `history_days[0] = 0` after encoding
provided `clip_history_days` is off or the record's day is non-negative
(the clipped-and-negative-day combination is the corner the original
claim misses). -/
theorem history_shape (cfg : Config) (hi : Option Int) (di : Int) (r : HumanDayInfo)
    (h14s : r.reported_symptoms.length = 14) (h14t : r.test_results.length = 14)
    (hok : isOkE (get cfg hi di r) = true) :
    (get cfg hi di r).map (fun s => s.health_history.length) = .ok 14 ∧
    historyDaysPre r.current_day =
      [r.current_day, r.current_day - 1, r.current_day - 2, r.current_day - 3,
       r.current_day - 4, r.current_day - 5, r.current_day - 6, r.current_day - 7,
       r.current_day - 8, r.current_day - 9, r.current_day - 10, r.current_day - 11,
       r.current_day - 12, r.current_day - 13] ∧
    (get cfg hi di r).map (fun s => s.valid_history_mask.count 1) =
      .ok ((historyDaysPre r.current_day).filter (fun x => 0 ≤ x)).length ∧
    (cfg.relative_days = true → cfg.clip_history_days = false ∨ 0 ≤ r.current_day →
      (get cfg hi di r).map (fun s => s.history_days.headD 1) = .ok 0) := by
  rw [get_eq_ok cfg hi di r hok]
  refine ⟨?_, historyDaysPre_eq r.current_day, ?_, fun hrel hclip => ?_⟩
  · simp [Except.map, buildSample, healthHistory, h14s, h14t]
  · simp only [Except.map, buildSample]
    rw [count_one_indicator]
  · simp only [Except.map, buildSample]
    rw [historyDaysOut_head_relative cfg r.current_day hrel hclip]

/-- Witness for the amended C7 at `rec0` under the default
configuration. -/
theorem history_shape_witness :
    (rec0.reported_symptoms.length = 14 ∧ rec0.test_results.length = 14 ∧
      isOkE (get defaultConfig none 0 rec0) = true) ∧
    (get defaultConfig none 0 rec0).map (fun s => s.health_history.length) = .ok 14 ∧
    (get defaultConfig none 0 rec0).map (fun s => s.history_days.headD 1) = .ok 0 := by
  have h := history_shape defaultConfig none 0 rec0 (by decide) (by decide) (by decide)
  exact ⟨⟨by decide, by decide, by decide⟩, h.1, h.2.2.2 rfl (Or.inl rfl)⟩

/-- C7 counterexample: with `relative_days` AND `clip_history_days` both
on, a record whose `current_day` is -1 (negative days are legitimate
storage keys, loader.py lines 148-155) encodes with
`history_days[0] = 1`, not 0: the clip to 0 happens before the relative
shift, so the head becomes `max(-1, 0) - (-1) = 1`. -/
theorem history_head_counterexample :
    cfgClip.relative_days = true ∧
    (get cfgClip none 0 recNeg).map (fun s => s.history_days.headD 0) = .ok 1 ∧
    ((1 : Int) = 0 → False) := by
  exact ⟨rfl, by decide, by decide⟩

/-- No-match search: `firstMatch` returns `none` exactly when the value
is absent. -/
lemma firstMatch_none (l : List Int) (d : Int) : firstMatch l d = none ↔ d ∉ l := by
  induction l with
  | nil => simp [firstMatch]
  | cons a t ih =>
      by_cases ha : a = d
      · subst ha
        simp [firstMatch]
      · simp only [firstMatch, ha, if_false, Option.map_eq_none', ih, List.mem_cons]
        constructor
        · intro h hc
          rcases hc with hc | hc
          · exact ha hc.symm
          · exact h hc
        · intro h hd
          exact h (Or.inr hd)

/-- The argmax-style search of loader.py lines 325-327: when the day
occurs in the history, `matchIdx` is the first index holding it; when it
does not, `matchIdx` is 0. -/
lemma matchIdx_spec (l : List Int) (d : Int) :
    (d ∈ l → l.getD (matchIdx l d) 0 = d ∧ ∀ j < matchIdx l d, l.getD j 0 ≠ d) ∧
    (d ∉ l → matchIdx l d = 0) := by
  constructor
  · intro hmem
    induction l with
    | nil => simp at hmem
    | cons a t ih =>
        by_cases ha : a = d
        · subst ha
          simp [matchIdx, firstMatch]
        · have hdt : d ∈ t := by
            rcases List.mem_cons.1 hmem with h | h
            · exact absurd h.symm ha
            · exact h
          obtain ⟨h1, h2⟩ := ih hdt
          cases hfm : firstMatch t d with
          | none => exact absurd hdt ((firstMatch_none t d).1 hfm)
          | some k =>
              have hk : matchIdx t d = k := by simp [matchIdx, hfm]
              have hidx : matchIdx (a :: t) d = k + 1 := by
                simp [matchIdx, firstMatch, ha, hfm]
              rw [hidx]
              constructor
              · have := h1
                rw [hk] at this
                simpa using this
              · intro j hj
                cases j with
                | zero => simpa using ha
                | succ j' =>
                    have := h2 j' (by omega)
                    simpa using this
  · intro hmem
    simp [matchIdx, (firstMatch_none l d).2 hmem]

/-- C9: in every successfully encoded sample, each retained encounter's
`encounter_health` row is the `health_history` row at index
`matchIdx history_days encounter_day`, where `matchIdx` picks the first
position of the descending pre-shift `history_days` holding the
encounter's day and falls back to index 0 (the current day's row) when
no history day matches. -/
theorem encounter_health_alignment (cfg : Config) (hi : Option Int) (di : Int)
    (r : HumanDayInfo) (hok : isOkE (get cfg hi di r) = true) :
    (get cfg hi di r).map (fun s => s.encounter_health) =
      .ok ((filteredEncounters r).map
        (fun e => (healthHistory r).getD (matchIdx (historyDaysPre r.current_day) e.day) [])) ∧
    ∀ e ∈ filteredEncounters r,
      (e.day ∈ historyDaysPre r.current_day →
        (historyDaysPre r.current_day).getD
            (matchIdx (historyDaysPre r.current_day) e.day) 0 = e.day ∧
        ∀ j < matchIdx (historyDaysPre r.current_day) e.day,
          (historyDaysPre r.current_day).getD j 0 ≠ e.day) ∧
      (e.day ∉ historyDaysPre r.current_day →
        matchIdx (historyDaysPre r.current_day) e.day = 0) := by
  constructor
  · rw [get_eq_ok cfg hi di r hok]
    simp [Except.map, buildSample]
  · intro e _
    exact ⟨(matchIdx_spec (historyDaysPre r.current_day) e.day).1,
      (matchIdx_spec (historyDaysPre r.current_day) e.day).2⟩

/-- Witness for C9 at `rec0`: its single retained encounter happened on
day 20, today's row. -/
theorem encounter_health_alignment_witness :
    isOkE (get defaultConfig none 0 rec0) = true ∧
    (get defaultConfig none 0 rec0).map (fun s => s.encounter_health) =
      .ok [(healthHistory rec0).getD 0 []] := by
  have h := encounter_health_alignment defaultConfig none 0 rec0 (by decide)
  exact ⟨by decide, h.1.trans (by decide)⟩

/-- Every member's length is bounded by `maxLen`. -/
lemma length_le_maxLen {α : Type _} (xss : List (List α)) (xs : List α) (h : xs ∈ xss) :
    xs.length ≤ maxLen xss := by
  induction xss with
  | nil => cases h
  | cons y t ih =>
      have hm : maxLen (y :: t) = Nat.max y.length (maxLen t) := rfl
      rcases List.mem_cons.1 h with rfl | h
      · rw [hm]
        exact Nat.le_max_left _ _
      · rw [hm]
        exact Nat.le_trans (ih h) (Nat.le_max_right _ _)

/-- `getD` through `map` at an in-bounds index. -/
lemma getD_map {α β : Type _} (l : List α) (f : α → β) (dα : α) (dβ : β) (i : ℕ)
    (hi : i < l.length) : (l.map f).getD i dβ = f (l.getD i dα) := by
  induction l generalizing i with
  | nil => simp at hi
  | cons a t ih =>
      cases i with
      | zero => simp
      | succ n => simpa using ih n (by simpa using hi)

/-- Sum of the 0/1 prefix indicator over `range m`. -/
lemma sum_range_indicator (m M : ℕ) :
    ((List.range m).map (fun j => if j < M then (1 : ℚ) else 0)).sum = min m M := by
  induction m with
  | zero => simp
  | succ n ih =>
      rw [List.range_succ, List.map_append, List.sum_append, ih]
      by_cases h : n < M
      · have h1 : min n M = n := by omega
        have h2 : min (n + 1) M = n + 1 := by omega
        simp [h, h1, h2]
      · have h1 : min n M = M := by omega
        have h2 : min (n + 1) M = M := by omega
        simp [h, h1, h2]

/-- `padSeq` right-pads each member with zero rows. -/
lemma padSeq_getD (xss : List (List (List ℚ))) (i : ℕ) (hi : i < xss.length) :
    (padSeq xss).getD i [] =
      xss.getD i [] ++ List.replicate (maxLen xss - (xss.getD i []).length)
        (List.replicate (padWidth xss) 0) := by
  unfold padSeq
  exact getD_map xss _ [] [] i hi |>.trans (by simp)

/-- All set-valued fields of one batch share `maxLen` when their lengths
agree sample-wise with `encounter_health`. -/
lemma maxLen_congr (batch : List Sample) (F : Sample → List (List ℚ))
    (hF : ∀ s ∈ batch, (F s).length = s.encounter_health.length) :
    maxLen (batch.map F) = maxLen (batch.map (fun s => s.encounter_health)) := by
  unfold maxLen
  rw [List.map_map, List.map_map]
  congr 1
  exact List.map_congr_left (fun s hs => by simp [hF s hs])

/-- An in-bounds `getD` is a member. -/
lemma getD_mem {α : Type _} (l : List α) (d : α) (i : ℕ) (hi : i < l.length) :
    l.getD i d ∈ l := by
  rw [List.getD_eq_getElem l d hi]
  exact List.getElem_mem hi

/-- Generic padded-field characterization used for each of the six
set-valued fields. -/
lemma collate_field_spec (batch : List Sample) (F : Sample → List (List ℚ))
    (hF : ∀ s ∈ batch, (F s).length = s.encounter_health.length) (i : ℕ)
    (hi : i < batch.length) :
    (padSeq (batch.map F)).getD i [] =
      F (batch.getD i emptySample) ++
        List.replicate
          (maxLen (batch.map (fun s => s.encounter_health)) -
            (F (batch.getD i emptySample)).length)
          (List.replicate (padWidth (batch.map F)) 0) ∧
    ((padSeq (batch.map F)).getD i []).length =
      maxLen (batch.map (fun s => s.encounter_health)) := by
  have hgd : (batch.map F).getD i [] = F (batch.getD i emptySample) :=
    getD_map batch F emptySample [] i hi
  have hmem : batch.getD i emptySample ∈ batch := getD_mem batch emptySample i hi
  have hle : (F (batch.getD i emptySample)).length ≤
      maxLen (batch.map (fun s => s.encounter_health)) := by
    rw [hF _ hmem]
    exact length_le_maxLen _ _ (List.mem_map_of_mem _ hmem)
  have h1 := padSeq_getD (batch.map F) i (by simpa using hi)
  rw [hgd, maxLen_congr batch F hF] at h1
  refine ⟨h1, ?_⟩
  rw [h1, List.length_append, List.length_replicate]
  omega

/-- Row `i` of the collate mask, written as an indicator over
`range max_set_len`. -/
lemma mask_getD_eq (batch : List Sample) (i : ℕ) (hi : i < batch.length) :
    (collate_fn batch).mask.getD i [] =
      (List.range (maxLen (batch.map (fun s => s.encounter_health)))).map
        (fun j => if j < (batch.getD i emptySample).encounter_health.length
          then (1 : ℚ) else 0) := by
  have h := getD_map batch
    (fun s : Sample =>
      (List.range (maxLen (batch.map (fun t : Sample => t.encounter_health)))).map
        (fun j => if j < s.encounter_health.length then (1 : ℚ) else 0))
    emptySample [] i hi
  exact h

/-- C3: collating a non-empty batch whose samples each have equal leading
lengths across the six set-valued fields (the encoder invariant) yields a
mask of shape (batch, max_M) whose entry (i, j) is 1 exactly when sample
i has at least j+1 encounters and 0 otherwise, whose row i sums to the
encounter count of sample i; and every set-valued field is right-padded
with zero rows to max_M along its first dimension and stacked, giving
every padded field leading shape (batch, max_M). -/
theorem collate_spec (batch : List Sample) (hne : batch ≠ [])
    (hinv : ∀ s ∈ batch,
      s.encounter_message.length = s.encounter_health.length ∧
      s.encounter_partner_id.length = s.encounter_health.length ∧
      s.encounter_day.length = s.encounter_health.length ∧
      s.encounter_duration.length = s.encounter_health.length ∧
      s.encounter_is_contagion.length = s.encounter_health.length) :
    (collate_fn batch).mask.length = batch.length ∧
    (∀ i, i < batch.length →
      ((collate_fn batch).mask.getD i []).length =
        maxLen (batch.map (fun s => s.encounter_health)) ∧
      ((collate_fn batch).mask.getD i []).sum =
        ((batch.getD i emptySample).encounter_health.length : ℚ) ∧
      ∀ j, j < maxLen (batch.map (fun s => s.encounter_health)) →
        ((collate_fn batch).mask.getD i []).getD j 0 =
          if j < (batch.getD i emptySample).encounter_health.length then 1 else 0) ∧
    ((collate_fn batch).encounter_health.length = batch.length ∧
     (collate_fn batch).encounter_message.length = batch.length ∧
     (collate_fn batch).encounter_partner_id.length = batch.length ∧
     (collate_fn batch).encounter_day.length = batch.length ∧
     (collate_fn batch).encounter_duration.length = batch.length ∧
     (collate_fn batch).encounter_is_contagion.length = batch.length) ∧
    (∀ i, i < batch.length →
      ((collate_fn batch).encounter_health.getD i [] =
          (batch.getD i emptySample).encounter_health ++
            List.replicate
              (maxLen (batch.map (fun s => s.encounter_health)) -
                (batch.getD i emptySample).encounter_health.length)
              (List.replicate (padWidth (batch.map (fun s => s.encounter_health))) 0) ∧
        ((collate_fn batch).encounter_health.getD i []).length =
          maxLen (batch.map (fun s => s.encounter_health))) ∧
      ((collate_fn batch).encounter_message.getD i [] =
          (batch.getD i emptySample).encounter_message ++
            List.replicate
              (maxLen (batch.map (fun s => s.encounter_health)) -
                (batch.getD i emptySample).encounter_message.length)
              (List.replicate (padWidth (batch.map (fun s => s.encounter_message))) 0) ∧
        ((collate_fn batch).encounter_message.getD i []).length =
          maxLen (batch.map (fun s => s.encounter_health))) ∧
      ((collate_fn batch).encounter_partner_id.getD i [] =
          (batch.getD i emptySample).encounter_partner_id ++
            List.replicate
              (maxLen (batch.map (fun s => s.encounter_health)) -
                (batch.getD i emptySample).encounter_partner_id.length)
              (List.replicate (padWidth (batch.map (fun s => s.encounter_partner_id))) 0) ∧
        ((collate_fn batch).encounter_partner_id.getD i []).length =
          maxLen (batch.map (fun s => s.encounter_health))) ∧
      ((collate_fn batch).encounter_day.getD i [] =
          (batch.getD i emptySample).encounter_day ++
            List.replicate
              (maxLen (batch.map (fun s => s.encounter_health)) -
                (batch.getD i emptySample).encounter_day.length)
              (List.replicate (padWidth (batch.map (fun s => s.encounter_day))) 0) ∧
        ((collate_fn batch).encounter_day.getD i []).length =
          maxLen (batch.map (fun s => s.encounter_health))) ∧
      ((collate_fn batch).encounter_duration.getD i [] =
          (batch.getD i emptySample).encounter_duration ++
            List.replicate
              (maxLen (batch.map (fun s => s.encounter_health)) -
                (batch.getD i emptySample).encounter_duration.length)
              (List.replicate (padWidth (batch.map (fun s => s.encounter_duration))) 0) ∧
        ((collate_fn batch).encounter_duration.getD i []).length =
          maxLen (batch.map (fun s => s.encounter_health))) ∧
      ((collate_fn batch).encounter_is_contagion.getD i [] =
          (batch.getD i emptySample).encounter_is_contagion ++
            List.replicate
              (maxLen (batch.map (fun s => s.encounter_health)) -
                (batch.getD i emptySample).encounter_is_contagion.length)
              (List.replicate (padWidth (batch.map (fun s => s.encounter_is_contagion))) 0) ∧
        ((collate_fn batch).encounter_is_contagion.getD i []).length =
          maxLen (batch.map (fun s => s.encounter_health)))) := by
  refine ⟨by simp [collate_fn], fun i hi => ?_,
    ⟨by simp [collate_fn, padSeq], by simp [collate_fn, padSeq],
     by simp [collate_fn, padSeq], by simp [collate_fn, padSeq],
     by simp [collate_fn, padSeq], by simp [collate_fn, padSeq]⟩,
    fun i hi => ?_⟩
  · have hle : (batch.getD i emptySample).encounter_health.length ≤
        maxLen (batch.map (fun s => s.encounter_health)) :=
      length_le_maxLen _ _ (List.mem_map_of_mem _ (getD_mem batch emptySample i hi))
    rw [mask_getD_eq batch i hi]
    refine ⟨by simp, ?_, fun j hj => ?_⟩
    · rw [sum_range_indicator, Nat.min_eq_right hle]
    · rw [getD_map (List.range (maxLen (batch.map (fun s => s.encounter_health)))) _ 0 0 j
        (by simpa using hj)]
      have hr : (List.range (maxLen (batch.map (fun s => s.encounter_health)))).getD j 0 = j := by
        rw [List.getD_eq_getElem _ _ (by simpa using hj)]
        simp
      rw [hr]
  · exact ⟨collate_field_spec batch (fun s => s.encounter_health) (fun s _ => rfl) i hi,
      collate_field_spec batch (fun s => s.encounter_message) (fun s hs => (hinv s hs).1) i hi,
      collate_field_spec batch (fun s => s.encounter_partner_id)
        (fun s hs => (hinv s hs).2.1) i hi,
      collate_field_spec batch (fun s => s.encounter_day) (fun s hs => (hinv s hs).2.2.1) i hi,
      collate_field_spec batch (fun s => s.encounter_duration)
        (fun s hs => (hinv s hs).2.2.2.1) i hi,
      collate_field_spec batch (fun s => s.encounter_is_contagion)
        (fun s hs => (hinv s hs).2.2.2.2) i hi⟩

/-- Witness for C3: the batch with encounter counts [2, 5, 3] has mask
row sums [2, 5, 3], max_M = 5, and padded fields of leading shape
(3, 5). -/
theorem collate_spec_witness :
    (batch3 ≠ [] ∧ ∀ s ∈ batch3,
      s.encounter_message.length = s.encounter_health.length ∧
      s.encounter_partner_id.length = s.encounter_health.length ∧
      s.encounter_day.length = s.encounter_health.length ∧
      s.encounter_duration.length = s.encounter_health.length ∧
      s.encounter_is_contagion.length = s.encounter_health.length) ∧
    ((collate_fn batch3).mask.getD 0 []).sum =
      ((batch3.getD 0 emptySample).encounter_health.length : ℚ) ∧
    ((collate_fn batch3).mask.getD 1 []).sum =
      ((batch3.getD 1 emptySample).encounter_health.length : ℚ) ∧
    ((collate_fn batch3).mask.getD 2 []).sum =
      ((batch3.getD 2 emptySample).encounter_health.length : ℚ) ∧
    (batch3.getD 0 emptySample).encounter_health.length = 2 ∧
    (batch3.getD 1 emptySample).encounter_health.length = 5 ∧
    (batch3.getD 2 emptySample).encounter_health.length = 3 ∧
    maxLen (batch3.map (fun s => s.encounter_health)) = 5 ∧
    (collate_fn batch3).mask.length = 3 ∧
    ((collate_fn batch3).encounter_message.getD 2 []).length =
      maxLen (batch3.map (fun s => s.encounter_health)) := by
  have h := collate_spec batch3 (by decide) (by decide)
  exact ⟨⟨by decide, by decide⟩, (h.2.1 0 (by decide)).2.1, (h.2.1 1 (by decide)).2.1,
    (h.2.1 2 (by decide)).2.1, by decide, by decide, by decide, by decide,
    h.1.trans (by decide), ((h.2.2.2 2 (by decide)).2.1).2⟩

end ContactDataset
